import Mathlib

/-!
Shallow embedding of the transaction-assembly pipeline in
`common/src/lib.rs` of the Jupiter `rust-examples` repository.

Bytes are modelled as `Nat` values below 256; public keys as 32-byte lists
(`List Nat`); strings as Lean `String`/`List Char`.  Fallible Rust code
(`Result`, `?`) is modelled with `Except`/`Option`.  Network and
cryptographic collaborators (HTTP fetches, bincode, ed25519) are modelled
as explicit oracle parameters, so the control flow of the repository's own
code is what the theorems are about.
-/

-- ───────────────────────── base64 (the `base64` crate, STANDARD config) ─────────────────────────

/-- Standard base64 alphabet used by `base64::encode` / `base64::decode`
(the `base64` crate with the STANDARD configuration), as called in
`common/src/lib.rs`. -/
def b64Alphabet : List Char :=
  "ABCDEFGHIJKLMNOPQRSTUVWXYZabcdefghijklmnopqrstuvwxyz0123456789+/".data

/-- Value `v < 64` to its base64 alphabet character. -/
def b64ValToChar (v : Nat) : Char := b64Alphabet.getD v 'A'

/-- Base64 alphabet character back to its 6-bit value; `none` for a
character outside the alphabet (including the padding character). -/
def b64CharToVal (c : Char) : Option Nat :=
  let i := b64Alphabet.indexOf c
  if i < 64 then some i else none

/-- Models `base64::encode`: bytes to base64 text, padding with `'='` so the
output length is a multiple of four. -/
def base64Encode : List Nat → List Char
  | [] => []
  | [a] => [b64ValToChar (a / 4), b64ValToChar (a % 4 * 16), '=', '=']
  | [a, b] => [b64ValToChar (a / 4), b64ValToChar (a % 4 * 16 + b / 16),
               b64ValToChar (b % 16 * 4), '=']
  | a :: b :: c :: rest =>
    b64ValToChar (a / 4) :: b64ValToChar (a % 4 * 16 + b / 16) ::
    b64ValToChar (b % 16 * 4 + c / 64) :: b64ValToChar (c % 64) :: base64Encode rest

/-- Decode a final base64 chunk `c1 c2 ==` to one byte.  The STANDARD config
rejects set trailing bits, hence the `v2 % 16 = 0` check. -/
def b64DecodePad2 (c1 c2 : Char) : Option (List Nat) :=
  match b64CharToVal c1, b64CharToVal c2 with
  | some v1, some v2 => if v2 % 16 = 0 then some [v1 * 4 + v2 / 16] else none
  | _, _ => none

/-- Decode a final base64 chunk `c1 c2 c3 =` to two bytes, rejecting set
trailing bits. -/
def b64DecodePad3 (c1 c2 c3 : Char) : Option (List Nat) :=
  match b64CharToVal c1, b64CharToVal c2, b64CharToVal c3 with
  | some v1, some v2, some v3 =>
    if v3 % 4 = 0 then some [v1 * 4 + v2 / 16, v2 % 16 * 16 + v3 / 4] else none
  | _, _, _ => none

/-- Models `base64::decode` (STANDARD config): four-character chunks decode
to three bytes; a final chunk may carry `'='` padding (or be an unpadded
two/three character tail, as the crate accepts); anything else fails. -/
def base64Decode : List Char → Option (List Nat)
  | [] => some []
  | [c1, c2] => b64DecodePad2 c1 c2
  | [c1, c2, c3] => b64DecodePad3 c1 c2 c3
  | c1 :: c2 :: c3 :: c4 :: rest =>
    if c3 = '=' then
      if c4 = '=' ∧ rest = [] then b64DecodePad2 c1 c2 else none
    else if c4 = '=' then
      if rest = [] then b64DecodePad3 c1 c2 c3 else none
    else
      match b64CharToVal c1, b64CharToVal c2, b64CharToVal c3, b64CharToVal c4 with
      | some v1, some v2, some v3, some v4 =>
        match base64Decode rest with
        | some tail => some ((v1 * 4 + v2 / 16) :: (v2 % 16 * 16 + v3 / 4) ::
                             (v3 % 4 * 64 + v4) :: tail)
        | none => none
      | _, _, _, _ => none
  | _ => none

-- ───────────────────────── base58 and `Pubkey::from_str` ─────────────────────────

/-- Bitcoin base58 alphabet used by the `bs58` crate. -/
def b58Alphabet : List Char :=
  "123456789ABCDEFGHJKLMNPQRSTUVWXYZabcdefghijkmnopqrstuvwxyz".data

/-- Base58 character to its value; `none` for a character outside the
alphabet. -/
def b58CharVal (c : Char) : Option Nat :=
  let i := b58Alphabet.indexOf c
  if i < 58 then some i else none

/-- Rust's `collect::<Result<Vec<_>, _>>` over `Option`: stop at the first
failure. -/
def collectOption {α β : Type} (f : α → Option β) : List α → Option (List β)
  | [] => some []
  | a :: rest =>
    match f a with
    | none => none
    | some b =>
      match collectOption f rest with
      | none => none
      | some bs => some (b :: bs)

/-- Big-endian base-256 digits of `n` (empty for `0`), with explicit fuel so
the definition is structural; `fuel = n` suffices because `n / 256 < n`. -/
def natToBytesBEAux : Nat → Nat → List Nat
  | 0, _ => []
  | fuel + 1, n => if n = 0 then [] else natToBytesBEAux fuel (n / 256) ++ [n % 256]

/-- Big-endian base-256 byte representation of `n` (empty for `0`). -/
def natToBytesBE (n : Nat) : List Nat := natToBytesBEAux n n

/-- Models `bs58::decode(..).into_vec()`: each leading `'1'` contributes a
zero byte and the whole string is read as a base-58 big integer. -/
def b58Decode (s : List Char) : Option (List Nat) :=
  match collectOption b58CharVal s with
  | none => none
  | some vals =>
    let zeros := (vals.takeWhile (· == 0)).length
    let n := vals.foldl (fun acc v => acc * 58 + v) 0
    some (List.replicate zeros 0 ++ natToBytesBE n)

/-- Models `solana_sdk::pubkey::Pubkey::from_str`: at most 44 characters,
valid base58, and exactly 32 decoded bytes. -/
def pubkeyFromStr (s : String) : Option (List Nat) :=
  if s.length > 44 then none
  else
    match b58Decode s.data with
    | none => none
    | some bytes => if bytes.length = 32 then some bytes else none

-- ───────────────────────── instruction decoder data model ─────────────────────────

/-- Decoder error kinds named by the specification for the failure points of
`TryFrom<InstructionJson> for Instruction` / `Ci::into_instruction` /
`swap_instruction_flow` in `common/src/lib.rs`. -/
inductive DecodeError
  | InvalidAddress
  | InvalidEncoding
  | UnsupportedFormat (msg : String)
  | EmptyInstructionSet
deriving DecidableEq, Repr

/-- Models `AccountMetaJson` (`pubkey`, `isSigner`, `isWritable`). -/
structure AccountMetaJson where
  pubkey : String
  isSigner : Bool
  isWritable : Bool
deriving DecidableEq, Repr

/-- Models `InstructionJson` (`programId`, `accounts`, base64 `data`). -/
structure InstructionJson where
  program_id : String
  accounts : List AccountMetaJson
  data : String
deriving DecidableEq, Repr

/-- Models `solana_sdk::instruction::AccountMeta`. -/
structure AccountMeta where
  pubkey : List Nat
  is_signer : Bool
  is_writable : Bool
deriving DecidableEq, Repr

/-- Models `AccountMeta::new`: writable account. -/
def AccountMeta.new (pk : List Nat) (signer : Bool) : AccountMeta :=
  ⟨pk, signer, true⟩

/-- Models `AccountMeta::new_readonly`: read-only account. -/
def AccountMeta.new_readonly (pk : List Nat) (signer : Bool) : AccountMeta :=
  ⟨pk, signer, false⟩

/-- Models `solana_sdk::instruction::Instruction`. -/
structure Instruction where
  program_id : List Nat
  accounts : List AccountMeta
  data : List Nat
deriving DecidableEq, Repr

/-- Rust's `collect::<Result<Vec<_>, E>>`: stop at the first error. -/
def collectExcept {α β ε : Type} (f : α → Except ε β) : List α → Except ε (List β)
  | [] => .ok []
  | a :: rest =>
    match f a with
    | .error e => .error e
    | .ok b =>
      match collectExcept f rest with
      | .error e => .error e
      | .ok bs => .ok (b :: bs)

/-- One `AccountMetaJson` to an `AccountMeta`, as in the closure inside
`TryFrom<InstructionJson> for Instruction`: parse the address, then pick
`AccountMeta::new` or `AccountMeta::new_readonly` from `isWritable`. -/
def accountConv (a : AccountMetaJson) : Except DecodeError AccountMeta :=
  match pubkeyFromStr a.pubkey with
  | none => .error DecodeError.InvalidAddress
  | some pk =>
    .ok (if a.isWritable then AccountMeta.new pk a.isSigner
         else AccountMeta.new_readonly pk a.isSigner)

/-- Models `TryFrom<InstructionJson> for Instruction` (`common/src/lib.rs`
lines 201–227): parse the program id, convert every account in order, then
base64-decode the payload. -/
def instructionTryFrom (j : InstructionJson) : Except DecodeError Instruction :=
  match pubkeyFromStr j.program_id with
  | none => .error DecodeError.InvalidAddress
  | some program_id =>
    match collectExcept accountConv j.accounts with
    | .error e => .error e
    | .ok accounts =>
      match base64Decode j.data.data with
      | none => .error DecodeError.InvalidEncoding
      | some data => .ok { program_id := program_id, accounts := accounts, data := data }

/-- Models the untagged `Ci` enum: a structured JSON instruction or a legacy
base64-encoded `CompiledInstruction` blob. -/
inductive Ci
  | Json (j : InstructionJson)
  | B64 (s : String)
deriving DecidableEq, Repr

/-- The exact message built by `Ci::into_instruction` for the legacy
variant. -/
def legacyMsg : String :=
  "legacy CompiledInstruction returned – re-issue the API call with \"instructionFormat\":\"json\""

/-- Models `Ci::into_instruction` (`common/src/lib.rs` lines 229–239). -/
def intoInstruction : Ci → Except DecodeError Instruction
  | Ci.Json j => instructionTryFrom j
  | Ci.B64 _ => .error (DecodeError.UnsupportedFormat legacyMsg)

-- ───────────────────────── swap-instructions response & decoding ─────────────────────────

/-- Models `SwapInstructionResponse` (`common/src/lib.rs` lines 242–262). -/
structure SwapInstructionResponse where
  token_ledger_instruction : Option Ci
  compute_budget_instructions : Option (List Ci)
  setup_instructions : Option (List Ci)
  swap_instruction : Option Ci
  cleanup_instruction : Option Ci
  address_lookup_table_addresses : Option (List String)
deriving DecidableEq, Repr

/-- Decoding of one optional instruction slot: `if let Some(ci) = ... {
ix.push(ci.into_instruction()?); }`. -/
def decodeOpt : Option Ci → Except DecodeError (List Instruction)
  | none => .ok []
  | some ci =>
    match intoInstruction ci with
    | .error e => .error e
    | .ok i => .ok [i]

/-- Decoding of one optional instruction-list slot: `if let Some(lst) = ...
{ for ci in lst { ix.push(ci.into_instruction()?); } }`. -/
def decodeOptList : Option (List Ci) → Except DecodeError (List Instruction)
  | none => .ok []
  | some lst => collectExcept intoInstruction lst

/-- Models the instruction-decoding section of `swap_instruction_flow`
(`common/src/lib.rs` lines 319–329): the five slots are decoded and
concatenated in their fixed order, and an empty result is rejected. -/
def decodeSwapInstructions (r : SwapInstructionResponse) :
    Except DecodeError (List Instruction) :=
  match decodeOpt r.token_ledger_instruction with
  | .error e => .error e
  | .ok a =>
    match decodeOptList r.compute_budget_instructions with
    | .error e => .error e
    | .ok b =>
      match decodeOptList r.setup_instructions with
      | .error e => .error e
      | .ok c =>
        match decodeOpt r.swap_instruction with
        | .error e => .error e
        | .ok d =>
          match decodeOpt r.cleanup_instruction with
          | .error e => .error e
          | .ok e' =>
            if (a ++ b ++ c ++ d ++ e').isEmpty then .error DecodeError.EmptyInstructionSet
            else .ok (a ++ b ++ c ++ d ++ e')

-- ───────────────────────── lookup-table resolution ─────────────────────────

/-- Models `solana_sdk::address_lookup_table_account::AddressLookupTableAccount`. -/
structure AddressLookupTableAccount where
  key : List Nat
  addresses : List (List Nat)
deriving DecidableEq, Repr

/-- Models the ALT loop of `swap_instruction_flow` (`common/src/lib.rs`
lines 332–345).  `fetch` is the `rpc.get_account` oracle (account data
bytes, `none` on RPC failure); `parseTable` is the
`AddressLookupTable::deserialize` oracle (the table's address list, `none`
on parse failure).  A malformed address string aborts via `?`; a failed
fetch or parse merely skips that address. -/
def resolveAlts (fetch : List Nat → Option (List Nat))
    (parseTable : List Nat → Option (List (List Nat))) :
    List String → Except DecodeError (List AddressLookupTableAccount)
  | [] => .ok []
  | addr :: rest =>
    match pubkeyFromStr addr with
    | none => .error DecodeError.InvalidAddress
    | some key =>
      let head : List AddressLookupTableAccount :=
        match fetch key with
        | none => []
        | some raw =>
          match parseTable raw with
          | none => []
          | some addresses => [⟨key, addresses⟩]
      match resolveAlts fetch parseTable rest with
      | .error e => .error e
      | .ok tail => .ok (head ++ tail)

-- ───────────────────────── signing ─────────────────────────

/-- Abstract versioned message: its account keys and how many of the leading
keys must sign. -/
structure MessageModel where
  account_keys : List (List Nat)
  num_required_signatures : Nat
deriving DecidableEq, Repr

/-- Models `solana_sdk::transaction::VersionedTransaction`: a message plus a
signature list. -/
structure VersionedTx (Sig : Type) where
  message : MessageModel
  signatures : List Sig

/-- Models `sign_versioned_tx` (`common/src/lib.rs` lines 83–89):
serialize the (cloned) message, sign those bytes with the keypair, and
replace the whole signature list by that single signature.  `serialize`
is the `VersionedMessage::serialize` oracle and `trySign` the
`Keypair::try_sign_message` oracle. -/
def sign_versioned_tx {Sig Kp : Type} (serialize : MessageModel → List Nat)
    (trySign : Kp → List Nat → Sig) (tx : VersionedTx Sig) (kp : Kp) :
    VersionedTx Sig :=
  { message := tx.message, signatures := [trySign kp (serialize tx.message)] }

-- ───────────────────────── integrator fee ─────────────────────────

/-- Parse a decimal `u64`, modelling `str::parse::<u64>().ok()` on the
digit strings the flows use (overflow and sign prefixes ignored). -/
def parseDigits : List Char → Nat → Option Nat
  | [], acc => some acc
  | c :: rest, acc =>
    if '0' ≤ c ∧ c ≤ '9' then parseDigits rest (acc * 10 + (c.toNat - '0'.toNat))
    else none

/-- Decimal parse of a whole string; empty input fails. -/
def parseU64 (s : String) : Option Nat :=
  match s.data with
  | [] => none
  | l => parseDigits l 0

/-- Models `integrator_fee` (`common/src/lib.rs` lines 92–99): the fee is
enabled only when `FEE_ACCOUNT` is a non-empty string and `FEE_BPS` parses
to a positive integer.  `env` models `std::env::var`. -/
def integrator_fee (env : String → Option String) : Option (String × Nat) :=
  let acc := (env "FEE_ACCOUNT").filter (fun s => s ≠ "")
  let bps := (env "FEE_BPS").bind parseU64
  match acc, bps with
  | some a, some b => if b > 0 then some (a, b) else none
  | _, _ => none

/-- Models the `fee_q` query fragment of `swap_flow` (`common/src/lib.rs`
lines 140–142): `&platformFeeBps={bps}` with no floor. -/
def swap_flow_fee_q (env : String → Option String) : String :=
  match integrator_fee env with
  | some (_, bps) => "&platformFeeBps=" ++ toString bps
  | none => ""

/-- Models the `fee_q` query fragment of `swap_instruction_flow`
(`common/src/lib.rs` lines 272–274): `&platformFeeBps={bps}` with no
floor. -/
def swap_instruction_fee_q (env : String → Option String) : String :=
  match integrator_fee env with
  | some (_, bps) => "&platformFeeBps=" ++ toString bps
  | none => ""

/-- Models the `fee_part` query fragment of `ultra_flow`
(`common/src/lib.rs` lines 390–392): `&referralAccount={acc}&referralFee=
{bps.max(50)}`, i.e. a floor of 50 on the fee value. -/
def ultra_fee_part (env : String → Option String) : String :=
  match integrator_fee env with
  | some (acc, bps) =>
    "&referralAccount=" ++ acc ++ "&referralFee=" ++ toString (max bps 50)
  | none => ""

-- ───────────────────────── trigger / recurring flows ─────────────────────────

/-- Error type for the flow pipelines, tagging which collaborator failed
(the Rust code carries these as `anyhow::Error` values). -/
inductive FlowError
  | transport (msg : String)
  | invalidEncoding
  | deserializeFailed
  | serializeFailed
  | rpcFailed (msg : String)
deriving DecidableEq, Repr

/-- Models `CreateTriggerResponse` / `CreateRecurringResponse`: the fields
the flow logic reads. -/
structure CreateOrderResponse where
  transaction : Option String
  request_id : Option String
  order : Option String
deriving DecidableEq, Repr

/-- Models `trigger_flow` (`common/src/lib.rs` lines 455–507) from the
createOrder response on.  `createOrder` is the HTTP POST + JSON parse
oracle; `deserializeTx` the `bincode::deserialize` oracle; `signTx` the
signing step; `serializeTx` the `bincode::serialize` oracle; `execute` the
execute-endpoint oracle.  When the response carries no (or an empty)
transaction, the code logs the response and returns `Ok(())`. -/
def trigger_flow {Tx E : Type} (createOrder : Except FlowError CreateOrderResponse)
    (deserializeTx : List Nat → Except FlowError Tx) (signTx : Tx → Tx)
    (serializeTx : Tx → Except FlowError (List Nat))
    (execute : String → String → Except FlowError E) : Except FlowError Unit :=
  match createOrder with
  | .error e => .error e
  | .ok create_resp =>
    match create_resp.transaction with
    | none => .ok ()
    | some tx_b64 =>
      if tx_b64 = "" then .ok ()
      else
        match base64Decode tx_b64.data with
        | none => .error FlowError.invalidEncoding
        | some raw =>
          match deserializeTx raw with
          | .error e => .error e
          | .ok tx =>
            match serializeTx (signTx tx) with
            | .error e => .error e
            | .ok ser =>
              match execute (String.mk (base64Encode ser))
                  (create_resp.request_id.getD "") with
              | .error e => .error e
              | .ok _ => .ok ()

/-- Models `recurring_flow` (`common/src/lib.rs` lines 545–590) from the
createOrder response on; the control flow mirrors `trigger_flow`. -/
def recurring_flow {Tx E : Type} (createOrder : Except FlowError CreateOrderResponse)
    (deserializeTx : List Nat → Except FlowError Tx) (signTx : Tx → Tx)
    (serializeTx : Tx → Except FlowError (List Nat))
    (execute : String → String → Except FlowError E) : Except FlowError Unit :=
  match createOrder with
  | .error e => .error e
  | .ok create_resp =>
    match create_resp.transaction with
    | none => .ok ()
    | some tx_b64 =>
      if tx_b64 = "" then .ok ()
      else
        match base64Decode tx_b64.data with
        | none => .error FlowError.invalidEncoding
        | some raw =>
          match deserializeTx raw with
          | .error e => .error e
          | .ok tx =>
            match serializeTx (signTx tx) with
            | .error e => .error e
            | .ok ser =>
              match execute (String.mk (base64Encode ser))
                  (create_resp.request_id.getD "") with
              | .error e => .error e
              | .ok _ => .ok ()

deriving instance DecidableEq for Except

-- ───────────────────────── spec-side predicates for order preservation ─────────────────────────

/-- An optional descriptor slot decodes to `out`: an absent slot contributes
nothing, a present one exactly its decoded instruction. -/
def decodesOpt (o : Option Ci) (out : List Instruction) : Prop :=
  match o with
  | none => out = []
  | some ci => ∃ i, intoInstruction ci = .ok i ∧ out = [i]

/-- An optional descriptor-list slot decodes to `out` pointwise, in the
received order. -/
def decodesList (o : Option (List Ci)) (out : List Instruction) : Prop :=
  match o with
  | none => out = []
  | some lst =>
    out.length = lst.length ∧
    ∀ k (h1 : k < lst.length) (h2 : k < out.length),
      intoInstruction (lst.get ⟨k, h1⟩) = .ok (out.get ⟨k, h2⟩)

-- ───────────────────────── concrete fixtures ─────────────────────────

/-- A well-formed structured instruction descriptor: the system program id,
one readonly signer account, payload `AQI=` (bytes `[1, 2]`). -/
def j0 : InstructionJson :=
  ⟨"11111111111111111111111111111111",
   [⟨"11111111111111111111111111111112", true, false⟩], "AQI="⟩

/-- The decoded form of `j0`. -/
def i0 : Instruction :=
  ⟨List.replicate 32 0, [⟨List.replicate 31 0 ++ [1], true, false⟩], [1, 2]⟩

/-- A descriptor whose program identifier is not valid base58. -/
def jBad : InstructionJson := ⟨"not-a-key!", [], ""⟩

/-- A swap-instructions response with no instructions at all. -/
def rEmpty : SwapInstructionResponse := ⟨none, none, none, none, none, none⟩

/-- A swap-instructions response with one setup instruction and no swap
instruction. -/
def rSetupOnly : SwapInstructionResponse :=
  ⟨none, none, some [Ci.Json j0], none, none, none⟩

/-- A swap-instructions response with every slot populated. -/
def rFull : SwapInstructionResponse :=
  ⟨some (Ci.Json j0), some [Ci.Json j0], some [Ci.Json j0], some (Ci.Json j0),
   some (Ci.Json j0), none⟩

/-- 32 zero bytes: the key decoded from 32 `'1'` characters. -/
def pkA : List Nat := List.replicate 32 0
/-- The key decoded from `111...112`. -/
def pkB : List Nat := List.replicate 31 0 ++ [1]
/-- The key decoded from `111...113`. -/
def pkC : List Nat := List.replicate 31 0 ++ [2]

/-- Three lookup-table addresses. -/
def altAddrsW : List String :=
  ["11111111111111111111111111111111", "11111111111111111111111111111112",
   "11111111111111111111111111111113"]

/-- Account fetch oracle that fails on the second key only. -/
def altFetchW : List Nat → Option (List Nat) :=
  fun k => if k = pkB then none else some [7]

/-- Table parse oracle that always succeeds with one stored address. -/
def altParseW : List Nat → Option (List (List Nat)) := fun _ => some [[42]]

/-- Environment with an enabled integrator fee of 10 basis points. -/
def envW : String → Option String :=
  fun k => if k = "FEE_ACCOUNT" then some "acct"
           else if k = "FEE_BPS" then some "10" else none

/-- A message requiring two signatures, whose second signer is key `[2]`. -/
def msgC6 : MessageModel := ⟨[[1], [2]], 2⟩

/-- A transaction over `msgC6` carrying two placeholder signatures. -/
def txC6 : VersionedTx (List Nat) := ⟨msgC6, [[9], [9]]⟩

/-- `sign_versioned_tx` applied to `txC6` with keypair `[2]` (signature
oracle: the signature is the signing key itself). -/
def signedC6 : VersionedTx (List Nat) :=
  sign_versioned_tx (fun _ => [0]) (fun kp _ => kp) txC6 [2]

/-- A createOrder response carrying no transaction (the trading service
reported a failure). -/
def respNoTx : CreateOrderResponse := ⟨none, none, none⟩

/-- Trivial deserialize oracle for flow fixtures. -/
def dW : List Nat → Except FlowError Unit := fun _ => .ok ()
/-- Trivial signing step for flow fixtures. -/
def sW : Unit → Unit := fun t => t
/-- Trivial serialize oracle for flow fixtures. -/
def serW : Unit → Except FlowError (List Nat) := fun _ => .ok []
/-- Trivial execute oracle for flow fixtures. -/
def eW : String → String → Except FlowError Unit := fun _ _ => .ok ()

-- ───────────────────────── helper lemmas ─────────────────────────

theorem collectExcept_ok_spec {α β ε : Type} (f : α → Except ε β) (l : List α) :
    ∀ (r : List β), collectExcept f l = .ok r →
      r.length = l.length ∧
      ∀ k (h1 : k < l.length) (h2 : k < r.length),
        f (l.get ⟨k, h1⟩) = .ok (r.get ⟨k, h2⟩) := by
  induction l with
  | nil =>
    intro r h
    simp only [collectExcept, Except.ok.injEq] at h
    subst h
    exact ⟨rfl, fun k h1 _ => absurd h1 (by simp)⟩
  | cons a rest ih =>
    intro r h
    simp only [collectExcept] at h
    cases hfa : f a with
    | error e => rw [hfa] at h; exact Except.noConfusion h
    | ok b =>
      rw [hfa] at h
      cases hrest : collectExcept f rest with
      | error e => rw [hrest] at h; exact Except.noConfusion h
      | ok bs =>
        rw [hrest] at h
        simp only [Except.ok.injEq] at h
        subst h
        obtain ⟨hlen, hidx⟩ := ih bs hrest
        refine ⟨by simp [hlen], ?_⟩
        intro k h1 h2
        cases k with
        | zero => simpa using hfa
        | succ n =>
          simpa using hidx n (by simpa using h1) (by simpa using h2)

theorem accountConv_ok_spec (a : AccountMetaJson) (m : AccountMeta)
    (h : accountConv a = .ok m) :
    pubkeyFromStr a.pubkey = some m.pubkey ∧
    m.is_signer = a.isSigner ∧ m.is_writable = a.isWritable := by
  unfold accountConv at h
  cases hpk : pubkeyFromStr a.pubkey with
  | none => rw [hpk] at h; exact Except.noConfusion h
  | some pk =>
    rw [hpk] at h
    cases hw : a.isWritable <;> rw [hw] at h <;>
      simp only [Bool.false_eq_true, if_false, if_true, Except.ok.injEq] at h <;>
      subst h <;> simp [AccountMeta.new, AccountMeta.new_readonly, hpk]

theorem accountConv_invalid (a : AccountMetaJson)
    (h : pubkeyFromStr a.pubkey = none) :
    accountConv a = .error DecodeError.InvalidAddress := by
  unfold accountConv; rw [h]

theorem accountConv_error_eq (a : AccountMetaJson) (e : DecodeError)
    (h : accountConv a = .error e) : e = DecodeError.InvalidAddress := by
  unfold accountConv at h
  cases hpk : pubkeyFromStr a.pubkey with
  | none => rw [hpk] at h; exact (Except.error.injEq _ _ ▸ h).symm ▸ rfl
  | some pk => rw [hpk] at h; exact Except.noConfusion h

theorem collectAccounts_invalid (l : List AccountMetaJson)
    (hex : ∃ a ∈ l, pubkeyFromStr a.pubkey = none) :
    collectExcept accountConv l = .error DecodeError.InvalidAddress := by
  induction l with
  | nil => obtain ⟨a, ha, _⟩ := hex; exact absurd ha (by simp)
  | cons a rest ih =>
    obtain ⟨x, hx, hnone⟩ := hex
    simp only [collectExcept]
    rcases List.mem_cons.mp hx with h | h
    · subst h; rw [accountConv_invalid x hnone]
    · cases hconv : accountConv a with
      | error e =>
        have he := accountConv_error_eq a e hconv
        subst he; rfl
      | ok b => simp only []; rw [ih ⟨x, h, hnone⟩]

theorem collectAccounts_ok_exists (l : List AccountMetaJson)
    (hall : ∀ a ∈ l, pubkeyFromStr a.pubkey ≠ none) :
    ∃ r, collectExcept accountConv l = .ok r := by
  induction l with
  | nil => exact ⟨[], rfl⟩
  | cons a rest ih =>
    cases hpk : pubkeyFromStr a.pubkey with
    | none => exact absurd hpk (hall a (by simp))
    | some pk =>
      obtain ⟨r, hr⟩ := ih (fun x hx => hall x (by simp [hx]))
      have hc : accountConv a = .ok (if a.isWritable then AccountMeta.new pk a.isSigner
          else AccountMeta.new_readonly pk a.isSigner) := by
        unfold accountConv; rw [hpk]
      exact ⟨(if a.isWritable then AccountMeta.new pk a.isSigner
          else AccountMeta.new_readonly pk a.isSigner) :: r,
        by simp only [collectExcept]; rw [hc, hr]⟩

theorem instructionTryFrom_ok_spec (j : InstructionJson) (i : Instruction)
    (h : instructionTryFrom j = .ok i) :
    pubkeyFromStr j.program_id = some i.program_id ∧
    base64Decode j.data.data = some i.data ∧
    i.accounts.length = j.accounts.length ∧
    ∀ k (h1 : k < j.accounts.length) (h2 : k < i.accounts.length),
      pubkeyFromStr ((j.accounts.get ⟨k, h1⟩).pubkey) =
        some ((i.accounts.get ⟨k, h2⟩).pubkey) ∧
      (i.accounts.get ⟨k, h2⟩).is_signer = (j.accounts.get ⟨k, h1⟩).isSigner ∧
      (i.accounts.get ⟨k, h2⟩).is_writable = (j.accounts.get ⟨k, h1⟩).isWritable := by
  unfold instructionTryFrom at h
  cases hpk : pubkeyFromStr j.program_id with
  | none => rw [hpk] at h; exact Except.noConfusion h
  | some pid =>
    rw [hpk] at h
    cases hacc : collectExcept accountConv j.accounts with
    | error e => rw [hacc] at h; exact Except.noConfusion h
    | ok accs =>
      rw [hacc] at h
      cases hdat : base64Decode j.data.data with
      | none => rw [hdat] at h; exact Except.noConfusion h
      | some d =>
        rw [hdat] at h
        simp only [Except.ok.injEq] at h
        subst h
        obtain ⟨hlen, hidx⟩ := collectExcept_ok_spec accountConv j.accounts accs hacc
        exact ⟨rfl, rfl, hlen,
          fun k h1 h2 => accountConv_ok_spec _ _ (hidx k h1 h2)⟩

-- ───────────────────────── claim theorems ─────────────────────────

/-- Claim C1: decoding a structured descriptor parses the program-identifier
string into a public key and fails with `InvalidAddress` when it or any
account address is malformed; each account's `(isSigner, isWritable)` pair
is carried into the decoded account verbatim (so exactly one of the four
access modes), preserving input order; and the payload is base64-decoded,
failing with `InvalidEncoding` when it is not valid base64. -/
theorem claim_C1 (j : InstructionJson) :
    (∀ i, instructionTryFrom j = .ok i →
      pubkeyFromStr j.program_id = some i.program_id ∧
      base64Decode j.data.data = some i.data ∧
      i.accounts.length = j.accounts.length ∧
      ∀ k (h1 : k < j.accounts.length) (h2 : k < i.accounts.length),
        pubkeyFromStr ((j.accounts.get ⟨k, h1⟩).pubkey) =
          some ((i.accounts.get ⟨k, h2⟩).pubkey) ∧
        (i.accounts.get ⟨k, h2⟩).is_signer = (j.accounts.get ⟨k, h1⟩).isSigner ∧
        (i.accounts.get ⟨k, h2⟩).is_writable = (j.accounts.get ⟨k, h1⟩).isWritable) ∧
    (pubkeyFromStr j.program_id = none →
      instructionTryFrom j = .error DecodeError.InvalidAddress) ∧
    ((∃ a ∈ j.accounts, pubkeyFromStr a.pubkey = none) →
      instructionTryFrom j = .error DecodeError.InvalidAddress) ∧
    (pubkeyFromStr j.program_id ≠ none →
      (∀ a ∈ j.accounts, pubkeyFromStr a.pubkey ≠ none) →
      base64Decode j.data.data = none →
      instructionTryFrom j = .error DecodeError.InvalidEncoding) := by
  refine ⟨fun i h => instructionTryFrom_ok_spec j i h, ?_, ?_, ?_⟩
  · intro hpk; unfold instructionTryFrom; rw [hpk]
  · intro hex
    unfold instructionTryFrom
    cases hpk : pubkeyFromStr j.program_id with
    | none => rfl
    | some pid => rw [collectAccounts_invalid j.accounts hex]
  · intro hpk hall hdat
    cases hp : pubkeyFromStr j.program_id with
    | none => exact absurd hp hpk
    | some pid =>
      obtain ⟨r, hr⟩ := collectAccounts_ok_exists j.accounts hall
      unfold instructionTryFrom
      rw [hp, hr, hdat]

/-- Witness for C1: the concrete descriptor `j0` decodes (its program id
parsing to `i0`'s program id), and the malformed descriptor `jBad` fails
with `InvalidAddress`. -/
theorem claim_C1_witness :
    pubkeyFromStr j0.program_id = some i0.program_id ∧
    instructionTryFrom jBad = .error DecodeError.InvalidAddress :=
  ⟨((claim_C1 j0).1 i0 (by rfl)).1, (claim_C1 jBad).2.1 (by rfl)⟩

/-- Claim C2: a legacy base64-encoded descriptor always fails with
`UnsupportedFormat` carrying the message that tells the caller to re-issue
the call with the structured JSON format; it is never decoded to any
instruction. -/
theorem claim_C2 (s : String) :
    intoInstruction (Ci.B64 s) = .error (DecodeError.UnsupportedFormat legacyMsg) ∧
    (∀ i, intoInstruction (Ci.B64 s) ≠ .ok i) ∧
    (∃ pre : String, legacyMsg = pre ++ "\"instructionFormat\":\"json\"") :=
  ⟨rfl, fun _ h => Except.noConfusion h,
   ⟨"legacy CompiledInstruction returned – re-issue the API call with ", rfl⟩⟩

/-- Counterexample to C3 as stated: a response with one setup instruction
and no swap instruction decodes successfully instead of failing with
`EmptyInstructionSet`. -/
theorem claim_C3_counterexample :
    rSetupOnly.swap_instruction = none ∧
    decodeSwapInstructions rSetupOnly = .ok [i0] :=
  ⟨rfl, rfl⟩

/-- Claim C3 (amended): decoding fails with `EmptyInstructionSet` exactly
when the concatenated instruction list is empty — in particular when the
response carries no instructions at all; the absence of the swap
instruction alone does not cause a failure when other slots are
populated. -/
theorem claim_C3 (r : SwapInstructionResponse) :
    (∀ l, decodeSwapInstructions r = .ok l → l ≠ []) ∧
    (r.token_ledger_instruction = none → r.compute_budget_instructions = none →
      r.setup_instructions = none → r.swap_instruction = none →
      r.cleanup_instruction = none →
      decodeSwapInstructions r = .error DecodeError.EmptyInstructionSet) := by
  constructor
  · intro l h
    unfold decodeSwapInstructions at h
    split at h
    · exact Except.noConfusion h
    · split at h
      · exact Except.noConfusion h
      · split at h
        · exact Except.noConfusion h
        · split at h
          · exact Except.noConfusion h
          · split at h
            · exact Except.noConfusion h
            · split at h
              · exact Except.noConfusion h
              · rename_i hemp
                simp only [Except.ok.injEq] at h
                subst h
                intro hnil
                exact hemp (by rw [hnil]; rfl)
  · intro h1 h2 h3 h4 h5
    unfold decodeSwapInstructions
    rw [h1, h2, h3, h4, h5]
    rfl

/-- Witness for C3: the all-empty response fails with
`EmptyInstructionSet`, and the successfully decoded `rSetupOnly` list is
non-empty. -/
theorem claim_C3_witness :
    decodeSwapInstructions rEmpty = .error DecodeError.EmptyInstructionSet ∧
    [i0] ≠ ([] : List Instruction) :=
  ⟨(claim_C3 rEmpty).2 rfl rfl rfl rfl rfl,
   (claim_C3 rSetupOnly).1 [i0] (by rfl)⟩

theorem decodeOpt_ok_spec (o : Option Ci) (out : List Instruction)
    (h : decodeOpt o = .ok out) : decodesOpt o out := by
  cases o with
  | none =>
    simp only [decodeOpt, Except.ok.injEq] at h
    subst h; rfl
  | some ci =>
    cases hci : intoInstruction ci with
    | error e => simp only [decodeOpt, hci] at h; exact Except.noConfusion h
    | ok i =>
      simp only [decodeOpt, hci, Except.ok.injEq] at h
      subst h
      exact ⟨i, hci, rfl⟩

theorem decodeOptList_ok_spec (o : Option (List Ci)) (out : List Instruction)
    (h : decodeOptList o = .ok out) : decodesList o out := by
  cases o with
  | none =>
    simp only [decodeOptList, Except.ok.injEq] at h
    subst h; rfl
  | some lst =>
    unfold decodeOptList at h
    obtain ⟨hlen, hidx⟩ := collectExcept_ok_spec intoInstruction lst out h
    exact ⟨hlen, hidx⟩

/-- Claim C4: a successfully decoded swap-instructions response yields
exactly the concatenation — in this fixed order — of the decoded
ledger-bookkeeping slot, compute-budget list (in received order), setup
list (in received order), swap slot and cleanup slot; and decoding never
reorders the accounts inside any instruction. -/
theorem claim_C4 (r : SwapInstructionResponse) (l : List Instruction)
    (h : decodeSwapInstructions r = .ok l) :
    (∃ a b c d e,
      decodeOpt r.token_ledger_instruction = .ok a ∧
      decodeOptList r.compute_budget_instructions = .ok b ∧
      decodeOptList r.setup_instructions = .ok c ∧
      decodeOpt r.swap_instruction = .ok d ∧
      decodeOpt r.cleanup_instruction = .ok e ∧
      l = a ++ b ++ c ++ d ++ e ∧
      decodesOpt r.token_ledger_instruction a ∧
      decodesList r.compute_budget_instructions b ∧
      decodesList r.setup_instructions c ∧
      decodesOpt r.swap_instruction d ∧
      decodesOpt r.cleanup_instruction e) ∧
    (∀ j i, instructionTryFrom j = .ok i →
      i.accounts.length = j.accounts.length ∧
      ∀ k (h1 : k < j.accounts.length) (h2 : k < i.accounts.length),
        pubkeyFromStr ((j.accounts.get ⟨k, h1⟩).pubkey) =
          some ((i.accounts.get ⟨k, h2⟩).pubkey) ∧
        (i.accounts.get ⟨k, h2⟩).is_signer = (j.accounts.get ⟨k, h1⟩).isSigner ∧
        (i.accounts.get ⟨k, h2⟩).is_writable = (j.accounts.get ⟨k, h1⟩).isWritable) := by
  constructor
  · unfold decodeSwapInstructions at h
    split at h
    · exact Except.noConfusion h
    rename_i a ha
    split at h
    · exact Except.noConfusion h
    rename_i b hb
    split at h
    · exact Except.noConfusion h
    rename_i c hc
    split at h
    · exact Except.noConfusion h
    rename_i d hd
    split at h
    · exact Except.noConfusion h
    rename_i e' he
    split at h
    · exact Except.noConfusion h
    simp only [Except.ok.injEq] at h
    subst h
    exact ⟨a, b, c, d, e', ha, hb, hc, hd, he, rfl,
      decodeOpt_ok_spec _ _ ha, decodeOptList_ok_spec _ _ hb,
      decodeOptList_ok_spec _ _ hc, decodeOpt_ok_spec _ _ hd,
      decodeOpt_ok_spec _ _ he⟩
  · intro j i hij
    obtain ⟨_, _, hlen, hidx⟩ := instructionTryFrom_ok_spec j i hij
    exact ⟨hlen, hidx⟩

/-- Witness for C4 at the fully populated response `rFull`, whose five
slots each decode to `i0`. -/
theorem claim_C4_witness :
    (∃ a b c d e,
      decodeOpt rFull.token_ledger_instruction = .ok a ∧
      decodeOptList rFull.compute_budget_instructions = .ok b ∧
      decodeOptList rFull.setup_instructions = .ok c ∧
      decodeOpt rFull.swap_instruction = .ok d ∧
      decodeOpt rFull.cleanup_instruction = .ok e ∧
      [i0, i0, i0, i0, i0] = a ++ b ++ c ++ d ++ e ∧
      decodesOpt rFull.token_ledger_instruction a ∧
      decodesList rFull.compute_budget_instructions b ∧
      decodesList rFull.setup_instructions c ∧
      decodesOpt rFull.swap_instruction d ∧
      decodesOpt rFull.cleanup_instruction e) ∧
    (∀ j i, instructionTryFrom j = .ok i →
      i.accounts.length = j.accounts.length ∧
      ∀ k (h1 : k < j.accounts.length) (h2 : k < i.accounts.length),
        pubkeyFromStr ((j.accounts.get ⟨k, h1⟩).pubkey) =
          some ((i.accounts.get ⟨k, h2⟩).pubkey) ∧
        (i.accounts.get ⟨k, h2⟩).is_signer = (j.accounts.get ⟨k, h1⟩).isSigner ∧
        (i.accounts.get ⟨k, h2⟩).is_writable = (j.accounts.get ⟨k, h1⟩).isWritable) :=
  claim_C4 rFull [i0, i0, i0, i0, i0] (by rfl)

/-- Claim C5: for well-formed lookup-table addresses, resolution returns
exactly the successfully fetched-and-parsed tables, skipping any address
whose fetch or parse fails, in the original input-address order. -/
theorem claim_C5 (fetch : List Nat → Option (List Nat))
    (parseTable : List Nat → Option (List (List Nat)))
    (addrs : List String) (hvalid : ∀ a ∈ addrs, (pubkeyFromStr a).isSome) :
    resolveAlts fetch parseTable addrs = .ok (addrs.filterMap (fun a =>
      (pubkeyFromStr a).bind (fun key =>
        ((fetch key).bind parseTable).map
          (fun t => AddressLookupTableAccount.mk key t)))) := by
  induction addrs with
  | nil => rfl
  | cons a rest ih =>
    have ha := hvalid a (by simp)
    cases hpk : pubkeyFromStr a with
    | none => rw [hpk] at ha; exact absurd ha (by simp)
    | some key =>
      have ih' := ih (fun x hx => hvalid x (by simp [hx]))
      simp only [resolveAlts, List.filterMap_cons, hpk, ih', Option.some_bind]
      cases hf : fetch key with
      | none => simp [hf]
      | some raw =>
        cases hp : parseTable raw with
        | none => simp [hf, hp]
        | some tbl => simp [hf, hp]

/-- Witness for C5: three addresses whose middle fetch fails resolve to the
first and third tables, in order. -/
theorem claim_C5_witness :
    resolveAlts altFetchW altParseW altAddrsW =
      .ok [⟨pkA, [[42]]⟩, ⟨pkC, [[42]]⟩] :=
  (claim_C5 altFetchW altParseW altAddrsW (by decide)).trans (by rfl)

/-- Counterexample to C6 as stated: `txC6`'s message requires two signers
and the keypair `[2]` is the second required signer (index 1), yet
`sign_versioned_tx` leaves a single-element signature list with the
signature at index 0 and nothing at index 1 — the signature is not placed
at the key's position among the required signers. -/
theorem claim_C6_counterexample :
    msgC6.num_required_signatures = 2 ∧
    msgC6.account_keys.get? 1 = some [2] ∧
    signedC6.signatures.length = 1 ∧
    signedC6.signatures.get? 1 = none ∧
    signedC6.signatures.get? 0 = some [2] :=
  ⟨rfl, rfl, rfl, rfl, rfl⟩

/-- Claim C6 (amended): signing serializes the unchanged message once and
the supplied keypair signs exactly that byte sequence; the resulting
signature list is the single-element list holding that signature at index
0, regardless of the key's position among the message's required signers
or of how many signatures the message requires. -/
theorem claim_C6 {Sig Kp : Type} (serialize : MessageModel → List Nat)
    (trySign : Kp → List Nat → Sig) (tx : VersionedTx Sig) (kp : Kp) :
    (sign_versioned_tx serialize trySign tx kp).message = tx.message ∧
    (sign_versioned_tx serialize trySign tx kp).signatures.length = 1 ∧
    (sign_versioned_tx serialize trySign tx kp).signatures.get? 0 =
      some (trySign kp (serialize tx.message)) :=
  ⟨rfl, rfl, rfl⟩

/-- Witness for C6 (amended) at the concrete fixture. -/
theorem claim_C6_witness :
    signedC6.message = txC6.message ∧
    signedC6.signatures.length = 1 ∧
    signedC6.signatures.get? 0 = some ((fun kp _ => kp) ([2] : List Nat) ((fun _ => [0]) txC6.message)) :=
  claim_C6 (fun _ => [0]) (fun kp _ => kp) txC6 [2]

/-- Counterexample to C7 as stated: a createOrder response carrying no
transaction (the trading-service stage failed) makes both the trigger and
the recurring flow return success, not a typed error. -/
theorem claim_C7_counterexample :
    @trigger_flow Unit Unit (.ok respNoTx) dW sW serW eW = .ok () ∧
    @recurring_flow Unit Unit (.ok respNoTx) dW sW serW eW = .ok () :=
  ⟨rfl, rfl⟩

/-- Claim C7 (amended): stage failures that propagate as errors (HTTP
createOrder failure, undecodable transaction text) abort the remaining
stages and surface a typed error, in both the trigger and the recurring
flow; but a createOrder response with a missing transaction aborts the
remaining stages while returning success (after logging), rather than a
typed error. -/
theorem claim_C7 {Tx E : Type} (deserializeTx : List Nat → Except FlowError Tx)
    (signTx : Tx → Tx) (serializeTx : Tx → Except FlowError (List Nat))
    (execute : String → String → Except FlowError E) :
    (∀ e, trigger_flow (.error e) deserializeTx signTx serializeTx execute = .error e) ∧
    (∀ resp, resp.transaction = none →
      trigger_flow (.ok resp) deserializeTx signTx serializeTx execute = .ok ()) ∧
    (∀ resp s, resp.transaction = some s → s ≠ "" → base64Decode s.data = none →
      trigger_flow (.ok resp) deserializeTx signTx serializeTx execute =
        .error FlowError.invalidEncoding) ∧
    (∀ e, recurring_flow (.error e) deserializeTx signTx serializeTx execute = .error e) ∧
    (∀ resp, resp.transaction = none →
      recurring_flow (.ok resp) deserializeTx signTx serializeTx execute = .ok ()) ∧
    (∀ resp s, resp.transaction = some s → s ≠ "" → base64Decode s.data = none →
      recurring_flow (.ok resp) deserializeTx signTx serializeTx execute =
        .error FlowError.invalidEncoding) := by
  refine ⟨fun e => rfl, fun resp h => ?_, fun resp s hs hne hdec => ?_,
          fun e => rfl, fun resp h => ?_, fun resp s hs hne hdec => ?_⟩
  · simp only [trigger_flow, h]
  · simp only [trigger_flow, hs, if_neg hne, hdec]
  · simp only [recurring_flow, h]
  · simp only [recurring_flow, hs, if_neg hne, hdec]

/-- Witness for C7 at concrete inputs: a transport error propagates, and a
missing-transaction response yields success. -/
theorem claim_C7_witness :
    @trigger_flow Unit Unit (.error (FlowError.transport "boom")) dW sW serW eW =
      .error (FlowError.transport "boom") ∧
    @recurring_flow Unit Unit (.ok respNoTx) dW sW serW eW = .ok () :=
  ⟨(claim_C7 dW sW serW eW).1 (FlowError.transport "boom"),
   (claim_C7 dW sW serW eW).2.2.2.2.1 respNoTx rfl⟩

/-- Claim C9: with an enabled integrator fee of `b` basis points, the ultra
flow requests a referral fee of `max b 50` (a floor of 50) while the swap
and swap-instructions flows request a platform fee of exactly `b`; for any
enabled `b < 50` the ultra flow therefore sends a different fee value than
the other two flows, from the same environment. -/
theorem claim_C9 (env : String → Option String) (a : String) (b : Nat)
    (h : integrator_fee env = some (a, b)) :
    ultra_fee_part env = "&referralAccount=" ++ a ++ "&referralFee=" ++ toString (max b 50) ∧
    swap_flow_fee_q env = "&platformFeeBps=" ++ toString b ∧
    swap_instruction_fee_q env = "&platformFeeBps=" ++ toString b ∧
    (b < 50 → max b 50 = 50 ∧ max b 50 ≠ b) := by
  refine ⟨?_, ?_, ?_, fun hb => ⟨by omega, by omega⟩⟩
  · unfold ultra_fee_part; rw [h]
  · unfold swap_flow_fee_q; rw [h]
  · unfold swap_instruction_fee_q; rw [h]

/-- Witness for C9: the environment `envW` enables a 10-bps fee; the ultra
flow requests 50 while the other flows request 10. -/
theorem claim_C9_witness :
    ultra_fee_part envW = "&referralAccount=" ++ "acct" ++ "&referralFee=" ++ toString (max 10 50) ∧
    swap_flow_fee_q envW = "&platformFeeBps=" ++ toString 10 ∧
    swap_instruction_fee_q envW = "&platformFeeBps=" ++ toString 10 ∧
    (10 < 50 → max 10 50 = 50 ∧ max 10 50 ≠ 10) :=
  claim_C9 envW "acct" 10 (by rfl)

/-- Claim C10: `sign_versioned_tx` leaves the message unchanged and
unconditionally replaces the whole signature list by the single-element
list holding the keypair's signature over the serialized message — the
result has exactly one signature whatever was there before and however
many signers the message requires. -/
theorem claim_C10 {Sig Kp : Type} (serialize : MessageModel → List Nat)
    (trySign : Kp → List Nat → Sig) (msg : MessageModel) (prev : List Sig) (kp : Kp) :
    (sign_versioned_tx serialize trySign ⟨msg, prev⟩ kp).message = msg ∧
    (sign_versioned_tx serialize trySign ⟨msg, prev⟩ kp).signatures =
      [trySign kp (serialize msg)] ∧
    (sign_versioned_tx serialize trySign ⟨msg, prev⟩ kp).signatures.length = 1 :=
  ⟨rfl, rfl, rfl⟩

/-- Witness for C10 at the concrete fixture (two prior signatures are
discarded). -/
theorem claim_C10_witness :
    (sign_versioned_tx (fun _ => [0]) (fun (kp : List Nat) _ => kp) ⟨msgC6, [[9], [9]]⟩ [2]).message = msgC6 ∧
    (sign_versioned_tx (fun _ => [0]) (fun (kp : List Nat) _ => kp) ⟨msgC6, [[9], [9]]⟩ [2]).signatures =
      [(fun (kp : List Nat) _ => kp) [2] ((fun _ => [0]) msgC6)] ∧
    (sign_versioned_tx (fun _ => [0]) (fun (kp : List Nat) _ => kp) ⟨msgC6, [[9], [9]]⟩ [2]).signatures.length = 1 :=
  claim_C10 (fun _ => [0]) (fun kp _ => kp) msgC6 [[9], [9]] [2]

theorem b64CharToVal_valToChar : ∀ v, v < 64 → b64CharToVal (b64ValToChar v) = some v := by
  decide

theorem b64ValToChar_ne_pad : ∀ v, v < 64 → b64ValToChar v ≠ '=' := by
  decide

theorem b64DecodePad2_enc (x y : Nat) (hx : x < 64) (hy : y < 64) (hy16 : y % 16 = 0) :
    b64DecodePad2 (b64ValToChar x) (b64ValToChar y) = some [x * 4 + y / 16] := by
  unfold b64DecodePad2
  rw [b64CharToVal_valToChar x hx, b64CharToVal_valToChar y hy]
  exact if_pos hy16

theorem b64DecodePad3_enc (x y z : Nat) (hx : x < 64) (hy : y < 64) (hz : z < 64)
    (hz4 : z % 4 = 0) :
    b64DecodePad3 (b64ValToChar x) (b64ValToChar y) (b64ValToChar z) =
      some [x * 4 + y / 16, y % 16 * 16 + z / 4] := by
  unfold b64DecodePad3
  rw [b64CharToVal_valToChar x hx, b64CharToVal_valToChar y hy, b64CharToVal_valToChar z hz]
  exact if_pos hz4

theorem base64Decode_pad2_eq (c1 c2 : Char) :
    base64Decode [c1, c2, '=', '='] = b64DecodePad2 c1 c2 := by
  simp [base64Decode]

theorem base64Decode_pad3_eq (c1 c2 c3 : Char) (h3 : c3 ≠ '=') :
    base64Decode [c1, c2, c3, '='] = b64DecodePad3 c1 c2 c3 := by
  simp [base64Decode, if_neg h3]

theorem base64Decode_cons4 (c1 c2 c3 c4 : Char) (rest : List Char)
    (v1 v2 v3 v4 : Nat) (tail : List Nat) (h3 : c3 ≠ '=') (h4 : c4 ≠ '=')
    (e1 : b64CharToVal c1 = some v1) (e2 : b64CharToVal c2 = some v2)
    (e3 : b64CharToVal c3 = some v3) (e4 : b64CharToVal c4 = some v4)
    (hrest : base64Decode rest = some tail) :
    base64Decode (c1 :: c2 :: c3 :: c4 :: rest) =
      some ((v1 * 4 + v2 / 16) :: (v2 % 16 * 16 + v3 / 4) :: (v3 % 4 * 64 + v4) :: tail) := by
  simp only [base64Decode, if_neg h3, if_neg h4, e1, e2, e3, e4, hrest]

theorem base64_decode_encode : ∀ (l : List Nat), (∀ x ∈ l, x < 256) →
    base64Decode (base64Encode l) = some l
  | [], _ => rfl
  | [a], h => by
    have ha : a < 256 := h a (by simp)
    simp only [base64Encode]
    rw [base64Decode_pad2_eq,
        b64DecodePad2_enc _ _ (by omega) (by omega) (by omega)]
    have e1 : a / 4 * 4 + a % 4 * 16 / 16 = a := by omega
    rw [e1]
  | [a, b], h => by
    have ha : a < 256 := h a (by simp)
    have hb : b < 256 := h b (by simp)
    simp only [base64Encode]
    rw [base64Decode_pad3_eq _ _ _ (b64ValToChar_ne_pad _ (by omega)),
        b64DecodePad3_enc _ _ _ (by omega) (by omega) (by omega) (by omega)]
    have e1 : a / 4 * 4 + (a % 4 * 16 + b / 16) / 16 = a := by omega
    have e2 : (a % 4 * 16 + b / 16) % 16 * 16 + b % 16 * 4 / 4 = b := by omega
    rw [e1, e2]
  | a :: b :: c :: rest, h => by
    have ha : a < 256 := h a (by simp)
    have hb : b < 256 := h b (by simp)
    have hc : c < 256 := h c (by simp)
    have ih := base64_decode_encode rest (fun x hx => h x (by simp [hx]))
    simp only [base64Encode]
    rw [base64Decode_cons4 _ _ _ _ _ _ _ _ _ _
          (b64ValToChar_ne_pad _ (by omega)) (b64ValToChar_ne_pad _ (by omega))
          (b64CharToVal_valToChar _ (by omega)) (b64CharToVal_valToChar _ (by omega))
          (b64CharToVal_valToChar _ (by omega)) (b64CharToVal_valToChar _ (by omega)) ih]
    have e1 : a / 4 * 4 + (a % 4 * 16 + b / 16) / 16 = a := by omega
    have e2 : (a % 4 * 16 + b / 16) % 16 * 16 + (b % 16 * 4 + c / 64) / 4 = b := by omega
    have e3 : (b % 16 * 4 + c / 64) % 4 * 64 + c % 64 = c := by omega
    rw [e1, e2, e3]

/-- Claim C8: encoding any byte string in the transport text encoding
(base64) and decoding the result yields exactly the original bytes. -/
theorem claim_C8 (l : List Nat) (h : ∀ x ∈ l, x < 256) :
    base64Decode (base64Encode l) = some l :=
  base64_decode_encode l h

/-- Witness for C8 at the byte string `Hello` and at the empty byte
string. -/
theorem claim_C8_witness :
    base64Decode (base64Encode [72, 101, 108, 108, 111]) = some [72, 101, 108, 108, 111] ∧
    base64Decode (base64Encode []) = some [] :=
  ⟨claim_C8 [72, 101, 108, 108, 111] (by decide), claim_C8 [] (by decide)⟩

/-- Witness for C2 at a concrete legacy blob. -/
theorem claim_C2_witness :
    intoInstruction (Ci.B64 "AQIDBA==") = .error (DecodeError.UnsupportedFormat legacyMsg) ∧
    (∀ i, intoInstruction (Ci.B64 "AQIDBA==") ≠ .ok i) ∧
    (∃ pre : String, legacyMsg = pre ++ "\"instructionFormat\":\"json\"") :=
  claim_C2 "AQIDBA=="
